import Mathlib

/-!
Verification model of the land-cover classification pipeline in
`scripts/classify.py` (function `classify_image` and its helpers).

Modelling conventions:
* Python floats are modelled as rationals (`ℚ`); `float` band values,
  spectral indices and the `1e-10` epsilon are exact rational arithmetic.
* External I/O (STAC fetches, raster reads, scikit-learn fitting) is
  modelled by oracle functions collected in a `World` structure; the code
  under verification is everything `classify_image` itself computes:
  band resolution, the sampling/fallback control flow, feature-vector
  construction, the training-set size gate, window clamping, output-size
  computation, the validity mask and the uint8 label write.
* Fallible control flow (`raise` / uncaught `KeyError`) is modelled with
  `Except ClassifyError`.
-/

/-- Band enumeration of `band_keys` (classify.py lines 90-97): the six
Sentinel-2 bands the pipeline targets, in dictionary insertion order. -/
def bandKeys : List String :=
  ["red", "green", "blue", "nir", "swir16", "swir22"]

/-- Containment of one character sequence inside another: `pat` occurs in
the list iff it is a prefix of some suffix. -/
def containsSeq (pat : List Char) : List Char → Bool
  | [] => pat.isEmpty
  | c :: cs => pat.isPrefixOf (c :: cs) || containsSeq pat cs

/-- Heuristic of classify.py lines 104 and 140: a URL requires
Planetary-Computer signing when it contains the substring
`blob.core.windows.net` (Python's `in` operator on strings). -/
def needsSigning (url : String) : Bool :=
  containsSeq "blob.core.windows.net".data url.data

/-- Signing step of classify.py lines 104-111 / 140-146: a URL matching the
heuristic is signed via `pc.sign`; a signing failure (the oracle returns
`none`) silently falls back to the unsigned URL. -/
def signIfNeeded (sign : String → Option String) (url : String) : String :=
  if needsSigning url then
    match sign url with
    | some s => s
    | none => url
  else url

/-- Band resolution of classify.py lines 99-111 (primary item) and the
helper `get_band_urls_for_item` (lines 133-147); both code sites run the
identical loop: for each of the six `bandKeys` present in the item's asset
map, record its (possibly signed) href.  `assets` maps an asset key to the
`href` of that asset when the asset is present (`.get('href', '')` makes
the href itself always defined). -/
def get_band_urls_for_item (sign : String → Option String)
    (assets : String → Option String) : List (String × String) :=
  bandKeys.filterMap fun k => (assets k).map fun href => (k, signIfNeeded sign href)

/-- Epsilon `1e-10` of classify.py lines 208-210 / 343-345, modelled as the
exact rational it denotes. -/
def eps : ℚ := 1 / 10 ^ 10

/-- NDVI formula of classify.py line 208 / 343. -/
def ndvi (nir red : ℚ) : ℚ := (nir - red) / (nir + red + eps)

/-- NDWI formula of classify.py line 209 / 344. -/
def ndwi (green nir : ℚ) : ℚ := (green - nir) / (green + nir + eps)

/-- NDBI formula of classify.py line 210 / 345. -/
def ndbi (swir16 nir : ℚ) : ℚ := (swir16 - nir) / (swir16 + nir + eps)

/-- EVI formula of classify.py line 211 / 346. -/
def evi (nir red blue : ℚ) : ℚ :=
  2.5 * (nir - red) / (nir + 6 * red - 7.5 * blue + 10000)

/-- Band lookup with zero default, `band_values.get(name, 0)` of
classify.py lines 192-206. -/
def lookupBand (bv : List (String × ℚ)) (b : String) : ℚ :=
  (bv.lookup b).getD 0

/-- Per-point feature vector of classify.py lines 191-213: the six raw
band values (missing bands default to 0) followed, when `include_indices`
is set, by the four spectral indices computed from the same defaults. -/
def buildFeatures (includeIndices : Bool) (bv : List (String × ℚ)) : List ℚ :=
  [lookupBand bv "red", lookupBand bv "green", lookupBand bv "blue",
   lookupBand bv "nir", lookupBand bv "swir16", lookupBand bv "swir22"] ++
  (if includeIndices then
    [ndvi (lookupBand bv "nir") (lookupBand bv "red"),
     ndwi (lookupBand bv "green") (lookupBand bv "nir"),
     ndbi (lookupBand bv "swir16") (lookupBand bv "nir"),
     evi (lookupBand bv "nir") (lookupBand bv "red") (lookupBand bv "blue")]
   else [])

/-- Feature count `n_features = 6 + (4 if include_indices else 0)` of
classify.py line 324. -/
def n_features (includeIndices : Bool) : ℕ :=
  6 + (if includeIndices then 4 else 0)

/-- Value of one pixel of one band on the bulk path,
`band_data.get(name, np.zeros((height, width)))` at row `i`, column `j`
(classify.py lines 328-333): a band absent from `band_data` contributes 0
for every pixel. -/
def bandVal (band_data : List (String × (ℕ → ℕ → ℚ))) (b : String) (i j : ℕ) : ℚ :=
  match band_data.lookup b with
  | some a => a i j
  | none => 0

/-- One row of the bulk feature tensor of classify.py lines 324-346,
restricted to a single pixel whose per-band value is `val b`: columns 0-5
are the raw bands in the fixed order, columns 6-9 (when enabled) the
indices computed from columns 3, 0, 1, 2, 4. -/
def bulkRow (includeIndices : Bool) (val : String → ℚ) : List ℚ :=
  [val "red", val "green", val "blue", val "nir", val "swir16", val "swir22"] ++
  (if includeIndices then
    [ndvi (val "nir") (val "red"), ndwi (val "green") (val "nir"),
     ndbi (val "swir16") (val "nir"),
     evi (val "nir") (val "red") (val "blue")]
   else [])

/-- Nodata sentinel of the output profile, classify.py line 377. -/
def nodata : ℕ := 0

/-- Per-pixel classification of classify.py lines 349-360:
`valid_mask = pixels[:, 3] > 0` keeps a pixel iff its nir value is
strictly positive; `classification` is a `uint8` zero array and only the
valid positions receive `clf.predict(pixels_scaled[valid_mask])`, whose
integer predictions wrap modulo 256 on assignment into the `uint8`
array.  `scaler` is the trainer's retained standardisation transform
(line 352), `predict` the per-row prediction of the fitted forest. -/
def classifyPixel (predict : List ℚ → ℕ) (scaler : List ℚ → List ℚ)
    (includeIndices : Bool) (val : String → ℚ) : ℕ :=
  if 0 < val "nir" then predict (scaler (bulkRow includeIndices val)) % 256
  else 0

/-- Full classification raster of classify.py lines 349-363, one list row
per raster row after the reshape on line 363. -/
def classificationGrid (predict : List ℚ → ℕ) (scaler : List ℚ → List ℚ)
    (includeIndices : Bool) (band_data : List (String × (ℕ → ℕ → ℚ)))
    (height width : ℕ) : List (List ℕ) :=
  (List.range height).map fun i =>
    (List.range width).map fun j =>
      classifyPixel predict scaler includeIndices (fun b => bandVal band_data b i j)

/-- Maximum output dimension `MAX_DIM = 1000` of classify.py line 278. -/
def MAX_DIM : ℕ := 1000

/-- Python's `int()` applied to a (modelled) float: truncation toward
zero. -/
def pyInt (q : ℚ) : ℤ :=
  if q < 0 then -⌊-q⌋ else ⌊q⌋

/-- Downscale factor of classify.py line 302:
`scale = max(window.width / MAX_DIM, window.height / MAX_DIM, 1)`,
computed once from the first band's clamped window. -/
def outScale (w h : ℤ) : ℚ :=
  max (max ((w : ℚ) / (MAX_DIM : ℚ)) ((h : ℚ) / (MAX_DIM : ℚ))) 1

/-- Output raster dimensions of classify.py lines 303-304:
`out_width = int(window.width / scale)`, `out_height = int(window.height / scale)`. -/
def outDims (w h : ℤ) : ℤ × ℤ :=
  (pyInt ((w : ℚ) / outScale w h), pyInt ((h : ℚ) / outScale w h))

/-- Pixel window of a raster read (offsets and extents), as produced by
`from_bounds` and coerced with `int()` in classify.py lines 290-298. -/
structure RasterWindow where
  colOff : ℤ
  rowOff : ℤ
  width : ℤ
  height : ℤ
deriving DecidableEq

/-- Width and height of a source raster. -/
structure RasterDims where
  width : ℤ
  height : ℤ
deriving DecidableEq

/-- Window clamp of classify.py lines 293-298: offsets are clamped to be
nonnegative and extents are clamped against the source dimensions minus
the unclamped offsets. -/
def clampWindow (win : RasterWindow) (src : RasterDims) : RasterWindow :=
  { colOff := max 0 win.colOff
    rowOff := max 0 win.rowOff
    width := min win.width (src.width - win.colOff)
    height := min win.height (src.height - win.rowOff) }

/-- Shapes of the arrays produced by the band-reading loop of classify.py
lines 286-318: the argument lists each band's clamped window extents in
loop order; the output dimensions are computed from the first band only
(`if out_width is None`, lines 301-308) and every subsequent read passes
the same `out_shape`, so each band's array gets that shared shape. -/
def readBandShapes : List (ℤ × ℤ) → List (ℤ × ℤ)
  | [] => []
  | (w, h) :: rest => outDims w h :: rest.map fun _ => outDims w h

/-- TrainingPoint of the configuration (classify.py lines 171-174):
latitude, longitude, integer label, optional class name. -/
structure TrainingPoint where
  lat : ℚ
  lon : ℚ
  label : ℕ
  class_name : Option String
deriving DecidableEq

/-- Oracles for every external effect `classify_image` performs.  Each
field stands for one third-party interaction; the pipeline's own logic
never lives here. -/
structure World where
  /-- `pc.sign` (lines 106, 142): `none` models a signing failure. -/
  sign : String → Option String
  /-- Result of `sample_point_from_urls`'s per-band body (lines 153-168)
  for one URL at one geographic point: reprojection, the bounds test, the
  pixel read and every caught exception are folded into one outcome;
  `none` models a miss or a read failure, `some v` a sampled value. -/
  readAt : ℚ → ℚ → String → Option ℚ
  /-- `search_stac_for_point` (lines 18-54): the asset map of the single
  returned feature, or `none` when the search yields nothing or fails. -/
  search : String → ℚ → ℚ → Option (String → Option String)
  /-- `StandardScaler().fit_transform` / `.transform` (lines 238-239,
  352): the transform retained from fitting on the given matrix. -/
  scalerFit : List (List ℚ) → List ℚ → List ℚ
  /-- `RandomForestClassifier(n_estimators=num_trees, ...).fit(X, y)`
  followed by per-row `.predict` (lines 242-248, 360). -/
  fitPredict : ℕ → List (List ℚ) → List ℕ → List ℚ → ℕ
  /-- Window returned by `from_bounds` for one band URL after the `int()`
  coercions of lines 290-298, before clamping. -/
  rawWindow : String → RasterWindow
  /-- `src.width` / `src.height` of one band URL (lines 296-297). -/
  srcDims : String → RasterDims
  /-- Resampled windowed read of lines 311-318 for one band URL: the
  `float32` array, indexed by output row and column. -/
  bandPixel : String → ℕ → ℕ → ℚ

/-- Configuration object of classify.py lines 71-76.  `primaryAssets` is
the asset map of the already-fetched primary STAC item (lines 83-87); the
network fetch itself is outside the modelled function.  The reporting-only
field `train_accuracy` (a float) is elided from the model. -/
structure Config where
  trainingData : List TrainingPoint
  primaryAssets : String → Option String
  collection : String
  output_path : String
  num_trees : ℕ
  includeIndices : Bool

/-- `sample_point_from_urls` (classify.py lines 149-169): for each band
URL in order, record the sampled value when the read succeeds, skip the
band otherwise. -/
def sample_point_from_urls (w : World) (urls : List (String × String))
    (lon lat : ℚ) : List (String × ℚ) :=
  urls.filterMap fun bu => (w.readAt lon lat bu.2).map fun v => (bu.1, v)

/-- Per-point sampling with fallback, classify.py lines 177-188: sample
the primary scene; when fewer than 4 bands result, run exactly one
catalog search, and when the found scene resolves at least 4 band URLs,
replace the band values wholesale with a sample from those URLs.  The
second component counts the catalog searches performed for this point. -/
def samplePointWithFallback (w : World) (collection : String)
    (urls : List (String × String)) (p : TrainingPoint) :
    List (String × ℚ) × ℕ :=
  if (sample_point_from_urls w urls p.lon p.lat).length < 4 then
    match w.search collection p.lon p.lat with
    | some item =>
      if 4 ≤ (get_band_urls_for_item w.sign item).length then
        (sample_point_from_urls w (get_band_urls_for_item w.sign item) p.lon p.lat, 1)
      else (sample_point_from_urls w urls p.lon p.lat, 1)
    | none => (sample_point_from_urls w urls p.lon p.lat, 1)
  else (sample_point_from_urls w urls p.lon p.lat, 0)

/-- Training-set assembly loop of classify.py lines 171-224: a point
whose (post-fallback) band values cover at least 4 bands contributes its
feature vector and label; any other point is dropped and the loop
continues. -/
def sampleTrainingData (w : World) (collection : String)
    (urls : List (String × String)) (includeIndices : Bool)
    (pts : List TrainingPoint) : List (List ℚ × ℕ) :=
  pts.filterMap fun p =>
    if 4 ≤ (samplePointWithFallback w collection urls p).1.length then
      some (buildFeatures includeIndices (samplePointWithFallback w collection urls p).1,
        p.label)
    else none

/-- Distinct labels of the kept points, the contents of the
`sampled_classes` set of classify.py lines 123, 217 (`List.dedup` keeps
one occurrence per label; only its cardinality and membership are used). -/
def sampledClasses (sampled : List (List ℚ × ℕ)) : List ℕ :=
  (sampled.map Prod.snd).dedup

/-- Errors `classify_image` can raise before producing a result:
`insufficientBands` is the `ValueError` of line 114 (carrying the band
names found), `missingKey` an uncaught `KeyError` on a dictionary lookup
(lines 126, 320), `insufficientData` the `ValueError` of line 227
(carrying the sample and class counts). -/
inductive ClassifyError where
  | insufficientBands (got : List String)
  | missingKey (key : String)
  | insufficientData (samples : ℕ) (classes : ℕ)
deriving DecidableEq

/-- Success record of classify.py lines 413-425, restricted to the
integer-valued fields plus the written raster itself.  Float reporting
fields (`training_accuracy`, `bounds`) and the CRS string are elided,
and `classes_sampled` is kept in first-occurrence order rather than
sorted. -/
structure ClassifyResult where
  output_path : String
  width : ℕ
  height : ℕ
  training_samples : ℕ
  classes_sampled : List ℕ
  classification : List (List ℕ)
deriving DecidableEq

instance {ε α : Type} [DecidableEq ε] [DecidableEq α] :
    DecidableEq (Except ε α) := fun
  | .ok a, .ok b =>
    if h : a = b then .isTrue (by rw [h])
    else .isFalse (by intro hc; cases hc; exact h rfl)
  | .ok _, .error _ => .isFalse (by intro hc; cases hc)
  | .error _, .ok _ => .isFalse (by intro hc; cases hc)
  | .error e, .error f =>
    if h : e = f then .isTrue (by rw [h])
    else .isFalse (by intro hc; cases hc; exact h rfl)

/-- Inference and write phase, classify.py lines 254-397: build
`band_data` by reading every resolved band (the read itself is the
`bandPixel` oracle; the clamp and the shared output shape are computed by
`clampWindow` / `outDims` from the first band's window, lines 286-318),
look up `band_data['nir']` (line 320, a `KeyError` when absent — also the
outcome when the band loop never ran), then classify every pixel of the
output grid and return the result record.  `nSamples` and `classes` are
the training-set statistics carried into the report. -/
def runInference (w : World) (cfg : Config) (band_urls : List (String × String))
    (scaler : List ℚ → List ℚ) (predict : List ℚ → ℕ)
    (nSamples : ℕ) (classes : List ℕ) : Except ClassifyError ClassifyResult :=
  match (band_urls.map fun bu => (bu.1, w.bandPixel bu.2)).lookup "nir" with
  | none => .error (.missingKey "nir")
  | some _ =>
    match band_urls with
    | [] => .error (.missingKey "nir")
    | (_, u0) :: _ =>
      .ok { output_path := cfg.output_path
            width := (outDims (clampWindow (w.rawWindow u0) (w.srcDims u0)).width
              (clampWindow (w.rawWindow u0) (w.srcDims u0)).height).1.toNat
            height := (outDims (clampWindow (w.rawWindow u0) (w.srcDims u0)).width
              (clampWindow (w.rawWindow u0) (w.srcDims u0)).height).2.toNat
            training_samples := nSamples
            classes_sampled := classes
            classification := classificationGrid predict scaler cfg.includeIndices
              (band_urls.map fun bu => (bu.1, w.bandPixel bu.2))
              (outDims (clampWindow (w.rawWindow u0) (w.srcDims u0)).width
                (clampWindow (w.rawWindow u0) (w.srcDims u0)).height).2.toNat
              (outDims (clampWindow (w.rawWindow u0) (w.srcDims u0)).width
                (clampWindow (w.rawWindow u0) (w.srcDims u0)).height).1.toNat }

/-- Training set the pipeline assembles for a given configuration: the
sampling loop applied over the resolved primary band URLs. -/
def pipelineSampled (w : World) (cfg : Config) : List (List ℚ × ℕ) :=
  sampleTrainingData w cfg.collection
    (get_band_urls_for_item w.sign cfg.primaryAssets) cfg.includeIndices
    cfg.trainingData

/-- Standardisation transform retained from fitting on the training
matrix, classify.py lines 238-239. -/
def trainedScaler (w : World) (sampled : List (List ℚ × ℕ)) : List ℚ → List ℚ :=
  w.scalerFit (sampled.map Prod.fst)

/-- Per-row prediction of the forest fitted on the standardised training
matrix and labels, classify.py lines 242-248. -/
def trainedPredict (w : World) (numTrees : ℕ) (sampled : List (List ℚ × ℕ)) :
    List ℚ → ℕ :=
  w.fitPredict numTrees ((sampled.map Prod.fst).map (trainedScaler w sampled))
    (sampled.map Prod.snd)

/-- Top-level pipeline `classify_image` (classify.py lines 57-425):
resolve the primary bands and fail when fewer than 4 resolve (lines
99-114); read the primary metadata through `band_urls['nir']` (line 126,
a `KeyError` when nir did not resolve); assemble the training set (the
`pipelineSampled` stage, lines 171-224) and fail when fewer than 3 rows
result (lines 226-227); fit the scaler and forest (lines 238-248) and run
inference. -/
def classify_image (w : World) (cfg : Config) : Except ClassifyError ClassifyResult :=
  if (get_band_urls_for_item w.sign cfg.primaryAssets).length < 4 then
    .error (.insufficientBands
      ((get_band_urls_for_item w.sign cfg.primaryAssets).map Prod.fst))
  else
    match (get_band_urls_for_item w.sign cfg.primaryAssets).lookup "nir" with
    | none => .error (.missingKey "nir")
    | some _ =>
      if (pipelineSampled w cfg).length < 3 then
        .error (.insufficientData (pipelineSampled w cfg).length
          (sampledClasses (pipelineSampled w cfg)).length)
      else
        runInference w cfg (get_band_urls_for_item w.sign cfg.primaryAssets)
          (trainedScaler w (pipelineSampled w cfg))
          (trainedPredict w cfg.num_trees (pipelineSampled w cfg))
          (pipelineSampled w cfg).length
          (sampledClasses (pipelineSampled w cfg))

/-- Asset map literal built from an association list. -/
def assetsOf (l : List (String × String)) : String → Option String :=
  fun k => l.lookup k

/-- World in which every raster read succeeds with value 100, no signing
service is available and the fallback search never finds a scene; the
inference window is empty. -/
def wAll : World :=
  { sign := fun _ => none
    readAt := fun _ _ _ => some 100
    search := fun _ _ _ => none
    scalerFit := fun _ x => x
    fitPredict := fun _ _ _ _ => 1
    rawWindow := fun _ => ⟨0, 0, 0, 0⟩
    srcDims := fun _ => ⟨0, 0⟩
    bandPixel := fun _ _ _ => 0 }

/-- World in which every raster read misses and the fallback search finds
nothing. -/
def wNone : World :=
  { wAll with readAt := fun _ _ _ => none }

/-- Configuration with a 4-band primary scene and three training points
that all carry the same label. -/
def cfg1 : Config :=
  { trainingData := [⟨10, 20, 1, none⟩, ⟨11, 21, 1, none⟩, ⟨12, 22, 1, none⟩]
    primaryAssets := assetsOf [("red", "ur"), ("green", "ug"), ("blue", "ub"), ("nir", "un")]
    collection := "sentinel-2-l2a"
    output_path := "out.tif"
    num_trees := 50
    includeIndices := true }

/-- Same scene as `cfg1` but only two training points (two labels). -/
def cfg2 : Config :=
  { cfg1 with trainingData := [⟨10, 20, 1, none⟩, ⟨11, 21, 2, none⟩] }

/-- Configuration whose primary scene resolves only 3 bands. -/
def cfg3 : Config :=
  { cfg1 with primaryAssets := assetsOf [("red", "ur"), ("green", "ug"), ("blue", "ub")] }

/-- Configuration whose primary scene resolves 4 bands but not nir. -/
def cfg8 : Config :=
  { cfg1 with
    primaryAssets := assetsOf
      [("red", "ur"), ("green", "ug"), ("blue", "ub"), ("swir16", "us")] }

/-- Asset map of the fallback scene used in the partial-coverage
scenario. -/
def item10 : String → Option String :=
  assetsOf [("red", "vr"), ("green", "vg"), ("blue", "vb"), ("nir", "vn")]

/-- Primary band URLs of the partial-coverage scenario. -/
def urls10 : List (String × String) :=
  [("red", "ur"), ("green", "ug"), ("blue", "ub"), ("nir", "un")]

/-- World of the partial-coverage scenario: the primary scene samples only
red and green, the fallback scene (found by every search) samples only
blue and nir. -/
def w10 : World :=
  { wAll with
    readAt := fun _ _ u =>
      if u = "ur" ∨ u = "ug" ∨ u = "vb" ∨ u = "vn" then some 5 else none
    search := fun _ _ _ => some item10 }

/-- Training point of the partial-coverage scenario. -/
def p10 : TrainingPoint := ⟨0, 0, 1, none⟩

/-- Constant prediction used to exercise the uint8 wraparound. -/
def pred256 : List ℚ → ℕ := fun _ => 256

/-- Identity standardisation transform used in concrete instantiations. -/
def scalId : List ℚ → List ℚ := fun x => x

/-- Constant band values (every band reads 1) used in concrete
instantiations. -/
def val256 : String → ℚ := fun _ => 1

/-- Constant prediction used to exercise the validity mask. -/
def pred5 : List ℚ → ℕ := fun _ => 5

/-- Single-band `band_data` whose nir array is identically 0. -/
def bd0 : List (String × (ℕ → ℕ → ℚ)) := [("nir", fun _ _ => 0)]

theorem lookup_map_value {β γ : Type} (f : β → γ) (k : String) :
    ∀ l : List (String × β),
      (l.map fun bu => (bu.1, f bu.2)).lookup k = (l.lookup k).map f
  | [] => rfl
  | (a, b) :: t => by
    cases h : k == a <;>
      simp [List.lookup, h, lookup_map_value f k t]

theorem pyInt_le (q : ℚ) (n : ℕ) (h : q ≤ (n : ℚ)) : pyInt q ≤ (n : ℤ) := by
  unfold pyInt
  split_ifs with hq
  · have h0 : (0 : ℤ) ≤ ⌊-q⌋ := Int.floor_nonneg.mpr (by linarith)
    have h1 : (0 : ℤ) ≤ (n : ℤ) := Int.natCast_nonneg n
    omega
  · calc ⌊q⌋ ≤ ⌊(n : ℚ)⌋ := Int.floor_le_floor h
      _ = (n : ℤ) := Int.floor_natCast n

theorem one_le_outScale (w h : ℤ) : 1 ≤ outScale w h :=
  le_max_right _ _

theorem div_MAXDIM_le_of (x s : ℚ) (hs : 1 ≤ s) (hx : x / (MAX_DIM : ℚ) ≤ s) :
    x / s ≤ (MAX_DIM : ℚ) := by
  have hs0 : (0 : ℚ) < s := lt_of_lt_of_le one_pos hs
  have hM : (0 : ℚ) < (MAX_DIM : ℚ) := by norm_num [MAX_DIM]
  have h1 : x ≤ s * (MAX_DIM : ℚ) := (div_le_iff₀ hM).mp hx
  rw [mul_comm] at h1
  exact (div_le_iff₀ hs0).mpr h1

theorem outDims_le (w h : ℤ) :
    (outDims w h).1 ≤ (MAX_DIM : ℤ) ∧ (outDims w h).2 ≤ (MAX_DIM : ℤ) := by
  constructor
  · refine pyInt_le _ _ (div_MAXDIM_le_of _ _ (one_le_outScale w h) ?_)
    exact le_trans (le_max_left _ _) (le_max_left _ _)
  · refine pyInt_le _ _ (div_MAXDIM_le_of _ _ (one_le_outScale w h) ?_)
    exact le_trans (le_max_right _ _) (le_max_left _ _)

theorem classificationGrid_cell (predict : List ℚ → ℕ) (scaler : List ℚ → List ℚ)
    (incl : Bool) (bd : List (String × (ℕ → ℕ → ℚ))) (H W i j : ℕ)
    (hi : i < H) (hj : j < W) :
    ((classificationGrid predict scaler incl bd H W).getD i []).getD j 1 =
      classifyPixel predict scaler incl (fun b => bandVal bd b i j) := by
  unfold classificationGrid
  rw [List.getD_eq_getElem?_getD, List.getD_eq_getElem?_getD,
    List.getElem?_map, List.getElem?_range hi]
  simp [List.getElem?_map, List.getElem?_range, hj]

theorem runInference_ne_bands (w : World) (cfg : Config)
    (bu : List (String × String)) (scaler : List ℚ → List ℚ)
    (predict : List ℚ → ℕ) (n : ℕ) (c : List ℕ) (names : List String) :
    runInference w cfg bu scaler predict n c ≠ .error (.insufficientBands names) := by
  unfold runInference
  split
  · simp
  · split
    · simp
    · simp

theorem runInference_ne_data (w : World) (cfg : Config)
    (bu : List (String × String)) (scaler : List ℚ → List ℚ)
    (predict : List ℚ → ℕ) (n : ℕ) (c : List ℕ) (a b : ℕ) :
    runInference w cfg bu scaler predict n c ≠ .error (.insufficientData a b) := by
  unfold runInference
  split
  · simp
  · split
    · simp
    · simp

/-- C2: for a fixed `include_indices` setting, every per-point feature
vector and every per-pixel bulk feature row has the same length — 10 with
indices, 6 without — with the six bands in the order red, green, blue,
nir, swir16, swir22 followed (when enabled) by NDVI, NDWI, NDBI, EVI; the
point path agrees with the bulk path evaluated at the point's defaulted
band values. -/
theorem C2_feature_vector_length (incl : Bool) (bv : List (String × ℚ))
    (val : String → ℚ) :
    (buildFeatures incl bv).length = n_features incl ∧
    (bulkRow incl val).length = n_features incl ∧
    n_features incl = (if incl then 10 else 6) ∧
    buildFeatures incl bv = bulkRow incl (fun b => lookupBand bv b) ∧
    (bulkRow incl val).take 6 =
      [val "red", val "green", val "blue", val "nir", val "swir16", val "swir22"] ∧
    (bulkRow true val).drop 6 =
      [ndvi (val "nir") (val "red"), ndwi (val "green") (val "nir"),
       ndbi (val "swir16") (val "nir"), evi (val "nir") (val "red") (val "blue")] ∧
    bulkRow false val =
      [val "red", val "green", val "blue", val "nir", val "swir16", val "swir22"] := by
  cases incl <;> simp [buildFeatures, bulkRow, n_features, lookupBand]

/-- C7: the spectral indices are the stated pure rational functions of the
band values with epsilon `1e-10`; NDVI vanishes whenever nir equals red,
and at nir = red = 0 it is 0 with a nonzero denominator. -/
theorem C7_spectral_index_formulas (nir red green blue swir16 : ℚ) :
    ndvi nir red = (nir - red) / (nir + red + eps) ∧
    ndwi green nir = (green - nir) / (green + nir + eps) ∧
    ndbi swir16 nir = (swir16 - nir) / (swir16 + nir + eps) ∧
    evi nir red blue = 2.5 * (nir - red) / (nir + 6 * red - 7.5 * blue + 10000) ∧
    eps = 1 / 10 ^ 10 ∧
    (∀ r : ℚ, ndvi r r = 0) ∧
    ndvi 0 0 = 0 ∧
    (0 : ℚ) + 0 + eps ≠ 0 := by
  refine ⟨rfl, rfl, rfl, rfl, rfl, ?_, ?_, ?_⟩
  · intro r; simp [ndvi]
  · simp [ndvi]
  · norm_num [eps]

/-- C3: a pixel whose nir band value is not strictly positive receives
the value 0 in the output classification raster, whatever the classifier
predicts. -/
theorem C3_invalid_pixel_zero (predict : List ℚ → ℕ) (scaler : List ℚ → List ℚ)
    (incl : Bool) (bd : List (String × (ℕ → ℕ → ℚ))) (H W i j : ℕ)
    (hi : i < H) (hj : j < W)
    (hnir : bandVal bd "nir" i j ≤ 0) :
    classifyPixel predict scaler incl (fun b => bandVal bd b i j) = 0 ∧
    ((classificationGrid predict scaler incl bd H W).getD i []).getD j 1 = 0 := by
  have hcell := classificationGrid_cell predict scaler incl bd H W i j hi hj
  have hpix : classifyPixel predict scaler incl (fun b => bandVal bd b i j) = 0 := by
    unfold classifyPixel
    rw [if_neg (not_lt.mpr hnir)]
  exact ⟨hpix, hcell.trans hpix⟩

theorem C3_invalid_pixel_zero_witness :
    classifyPixel pred5 scalId true (fun b => bandVal bd0 b 0 0) = 0 ∧
    ((classificationGrid pred5 scalId true bd0 1 1).getD 0 []).getD 0 1 = 0 :=
  C3_invalid_pixel_zero pred5 scalId true bd0 1 1 0 0 (by decide) (by decide) (by decide)

/-- C9: the raster stores labels as unsigned 8-bit integers — a valid
pixel predicted as label `L` is written as `L % 256`, so a label of 256
would be written as 0, the nodata sentinel. -/
theorem C9_uint8_label_wrap (predict : List ℚ → ℕ) (scaler : List ℚ → List ℚ)
    (incl : Bool) (val : String → ℚ) (L : ℕ)
    (hnir : 0 < val "nir")
    (hL : predict (scaler (bulkRow incl val)) = L) :
    classifyPixel predict scaler incl val = L % 256 ∧
    (L = 256 → classifyPixel predict scaler incl val = nodata) := by
  have h1 : classifyPixel predict scaler incl val = L % 256 := by
    unfold classifyPixel
    rw [if_pos hnir, hL]
  exact ⟨h1, fun h256 => by rw [h1, h256]; decide⟩

theorem C9_uint8_label_wrap_witness :
    classifyPixel pred256 scalId true val256 = 256 % 256 ∧
    (256 = 256 → classifyPixel pred256 scalId true val256 = nodata) :=
  C9_uint8_label_wrap pred256 scalId true val256 256 (by decide) rfl

/-- C4: the output dimensions computed from the first band's clamped
window never exceed `MAX_DIM` on either axis, and the band-reading loop
gives every band's array that one shared shape. -/
theorem C4_output_dims_capped (wins : List (ℤ × ℤ)) (w h : ℤ)
    (rest : List (ℤ × ℤ)) (hw : wins = (w, h) :: rest) :
    readBandShapes wins = List.replicate wins.length (outDims w h) ∧
    (outDims w h).1 ≤ (MAX_DIM : ℤ) ∧ (outDims w h).2 ≤ (MAX_DIM : ℤ) := by
  subst hw
  refine ⟨?_, outDims_le w h⟩
  simp [readBandShapes, List.replicate_succ, List.map_const']

theorem C4_output_dims_capped_witness :
    readBandShapes [((2500 : ℤ), (800 : ℤ)), ((40 : ℤ), (40 : ℤ))] =
      List.replicate 2 (outDims 2500 800) ∧
    (outDims 2500 800).1 ≤ (MAX_DIM : ℤ) ∧ (outDims 2500 800).2 ≤ (MAX_DIM : ℤ) :=
  C4_output_dims_capped [((2500 : ℤ), 800), ((40 : ℤ), 40)] 2500 800
    [((40 : ℤ), 40)] rfl

/-- C6: a point whose primary-scene sample covers fewer than 4 bands
triggers exactly one fallback catalog search (a point with 4 or more
primary bands triggers none and keeps its primary sample); a point still
under 4 bands after the fallback contributes nothing to the training set,
and the remaining points are processed unchanged. -/
theorem C6_fallback_once_then_drop (w : World) (coll : String)
    (urls : List (String × String)) (p : TrainingPoint) :
    ((sample_point_from_urls w urls p.lon p.lat).length < 4 →
      (samplePointWithFallback w coll urls p).2 = 1) ∧
    (4 ≤ (sample_point_from_urls w urls p.lon p.lat).length →
      (samplePointWithFallback w coll urls p).2 = 0 ∧
      (samplePointWithFallback w coll urls p).1 =
        sample_point_from_urls w urls p.lon p.lat) ∧
    (∀ (incl : Bool) (ps : List TrainingPoint),
      (samplePointWithFallback w coll urls p).1.length < 4 →
      sampleTrainingData w coll urls incl (p :: ps) =
        sampleTrainingData w coll urls incl ps) := by
  refine ⟨?_, ?_, ?_⟩
  · intro h
    unfold samplePointWithFallback
    rw [if_pos h]
    split
    · split <;> rfl
    · rfl
  · intro h
    unfold samplePointWithFallback
    rw [if_neg (not_lt.mpr h)]
    exact ⟨rfl, rfl⟩
  · intro incl ps h
    have hnone : (if 4 ≤ (samplePointWithFallback w coll urls p).1.length then
        some (buildFeatures incl (samplePointWithFallback w coll urls p).1, p.label)
      else none) = none := if_neg (not_le.mpr h)
    simp only [sampleTrainingData, List.filterMap_cons, hnone]

theorem C6_fallback_once_then_drop_witness :
    (samplePointWithFallback wNone "c" urls10 p10).2 = 1 ∧
    sampleTrainingData wNone "c" urls10 true [p10] =
      sampleTrainingData wNone "c" urls10 true [] :=
  ⟨(C6_fallback_once_then_drop wNone "c" urls10 p10).1 (by decide),
   (C6_fallback_once_then_drop wNone "c" urls10 p10).2.2 true [] (by decide)⟩

/-- C10: when the fallback scene resolves at least 4 band URLs, the
point's band values are replaced wholesale by the fallback sample —
primary bands are never merged in — and consequently a point can be
dropped although the primary and fallback samples together cover 4 or
more distinct bands. -/
theorem C10_fallback_replaces_wholesale :
    (∀ (w : World) (coll : String) (urls : List (String × String))
      (p : TrainingPoint) (item : String → Option String),
      w.search coll p.lon p.lat = some item →
      (sample_point_from_urls w urls p.lon p.lat).length < 4 →
      4 ≤ (get_band_urls_for_item w.sign item).length →
      (samplePointWithFallback w coll urls p).1 =
        sample_point_from_urls w (get_band_urls_for_item w.sign item) p.lon p.lat) ∧
    (∃ (w : World) (coll : String) (urls : List (String × String))
      (p : TrainingPoint),
      4 ≤ ((sample_point_from_urls w urls p.lon p.lat).map Prod.fst ++
        (samplePointWithFallback w coll urls p).1.map Prod.fst).dedup.length ∧
      sampleTrainingData w coll urls true [p] = []) := by
  constructor
  · intro w coll urls p item hs hlt hge
    unfold samplePointWithFallback
    rw [if_pos hlt]
    split
    · rename_i item' heq
      rw [hs] at heq
      obtain rfl : item = item' := Option.some.inj heq
      rw [if_pos hge]
    · rename_i heq
      rw [hs] at heq
      cases heq
  · exact ⟨w10, "c", urls10, p10, by decide, by decide⟩

theorem C10_fallback_replaces_wholesale_witness :
    (samplePointWithFallback w10 "c" urls10 p10).1 =
      sample_point_from_urls w10 (get_band_urls_for_item w10.sign item10)
        p10.lon p10.lat :=
  C10_fallback_replaces_wholesale.1 w10 "c" urls10 p10 item10 rfl
    (by decide) (by decide)

/-- C5: the pipeline raises the insufficient-bands error exactly when
fewer than 4 of the 6 target bands resolve from the primary scene; in
that case the outcome is already fixed by the band resolution alone —
any world with the same signing oracle (whatever its sampling, search,
fitting or raster behaviour) produces the identical error, so the
pipeline halts before sampling any training point. -/
theorem C5_insufficient_bands (w : World) (cfg : Config) :
    ((∃ names, classify_image w cfg = .error (.insufficientBands names)) ↔
      (get_band_urls_for_item w.sign cfg.primaryAssets).length < 4) ∧
    (∀ w' : World, w'.sign = w.sign →
      (get_band_urls_for_item w.sign cfg.primaryAssets).length < 4 →
      classify_image w' cfg =
        .error (.insufficientBands
          ((get_band_urls_for_item w.sign cfg.primaryAssets).map Prod.fst))) := by
  constructor
  · constructor
    · rintro ⟨names, hnames⟩
      by_contra h4
      unfold classify_image at hnames
      rw [if_neg h4] at hnames
      split at hnames
      · simp at hnames
      · split at hnames
        · simp at hnames
        · exact runInference_ne_bands _ _ _ _ _ _ _ _ hnames
    · intro hlt
      exact ⟨_, by unfold classify_image; rw [if_pos hlt]⟩
  · intro w' hsign hlt
    unfold classify_image
    rw [hsign, if_pos hlt]

theorem C5_insufficient_bands_witness :
    classify_image wNone cfg3 =
      .error (.insufficientBands
        ((get_band_urls_for_item wAll.sign cfg3.primaryAssets).map Prod.fst)) :=
  (C5_insufficient_bands wAll cfg3).2 wNone rfl (by decide)

/-- C8: a primary scene that passes the at-least-4-bands check but does
not resolve the nir band makes the pipeline fail with the nir key lookup
error, before any classification is produced. -/
theorem C8_missing_nir_error (w : World) (cfg : Config)
    (h4 : ¬ (get_band_urls_for_item w.sign cfg.primaryAssets).length < 4)
    (hn : (get_band_urls_for_item w.sign cfg.primaryAssets).lookup "nir" = none) :
    classify_image w cfg = .error (.missingKey "nir") := by
  unfold classify_image
  rw [if_neg h4]
  split
  · rfl
  · rename_i v heq
    rw [hn] at heq
    cases heq

theorem C8_missing_nir_error_witness :
    classify_image wAll cfg8 = .error (.missingKey "nir") :=
  C8_missing_nir_error wAll cfg8 (by decide) (by decide)

/-- C1 (amended): once at least 4 bands including nir resolve, the
pipeline fails with the insufficient-data error if and only if the
assembled training set has fewer than 3 sampled rows; the error carries
the row count and the distinct-label count, and in the failure case no
result record (hence no raster) is produced.  The number of distinct
labels is not part of the gate. -/
theorem C1_insufficient_data_amended (w : World) (cfg : Config)
    (h4 : ¬ (get_band_urls_for_item w.sign cfg.primaryAssets).length < 4)
    (hn : ((get_band_urls_for_item w.sign cfg.primaryAssets).lookup "nir").isSome) :
    ((∃ n k, classify_image w cfg = .error (.insufficientData n k)) ↔
      (pipelineSampled w cfg).length < 3) ∧
    ((pipelineSampled w cfg).length < 3 →
      classify_image w cfg =
        .error (.insufficientData (pipelineSampled w cfg).length
          (sampledClasses (pipelineSampled w cfg)).length)) := by
  obtain ⟨v, hv⟩ := Option.isSome_iff_exists.mp hn
  have hstep : classify_image w cfg =
      (if (pipelineSampled w cfg).length < 3 then
        .error (.insufficientData (pipelineSampled w cfg).length
          (sampledClasses (pipelineSampled w cfg)).length)
      else
        runInference w cfg (get_band_urls_for_item w.sign cfg.primaryAssets)
          (trainedScaler w (pipelineSampled w cfg))
          (trainedPredict w cfg.num_trees (pipelineSampled w cfg))
          (pipelineSampled w cfg).length
          (sampledClasses (pipelineSampled w cfg))) := by
    unfold classify_image
    rw [if_neg h4]
    split
    · rename_i heq
      rw [hv] at heq
      cases heq
    · rfl
  constructor
  · constructor
    · rintro ⟨n, k, hke⟩
      by_contra h3
      rw [hstep, if_neg h3] at hke
      exact runInference_ne_data _ _ _ _ _ _ _ _ _ hke
    · intro h3
      exact ⟨_, _, by rw [hstep, if_pos h3]⟩
  · intro h3
    rw [hstep, if_pos h3]

theorem C1_insufficient_data_witness :
    classify_image wAll cfg2 =
      .error (.insufficientData (pipelineSampled wAll cfg2).length
        (sampledClasses (pipelineSampled wAll cfg2)).length) :=
  (C1_insufficient_data_amended wAll cfg2 (by decide) (by decide)).2 (by decide)

/-- C1 (counterexample to the claim as stated): a training set of exactly
3 sampled rows that all carry one single label — so the claim's
"fewer than 2 distinct labels" failure condition holds — does not make
training fail: the pipeline runs to completion and writes a raster.  The
returned record shows 3 training samples and the single sampled class. -/
theorem C1_insufficient_data_counterexample :
    classify_image wAll cfg1 =
      .ok { output_path := "out.tif", width := 0, height := 0,
            training_samples := 3, classes_sampled := [1],
            classification := [] } := by
  have hurls : get_band_urls_for_item wAll.sign cfg1.primaryAssets =
      [("red", "ur"), ("green", "ug"), ("blue", "ub"), ("nir", "un")] := by decide
  have hn3 : ¬ (pipelineSampled wAll cfg1).length < 3 := by decide
  have hsamp : (pipelineSampled wAll cfg1).length = 3 := by decide
  have hcls : sampledClasses (pipelineSampled wAll cfg1) = [1] := by decide
  have hout : outDims 0 0 = (0, 0) := by
    simp [outDims, outScale, pyInt]
  unfold classify_image
  rw [if_neg (by decide :
    ¬ (get_band_urls_for_item wAll.sign cfg1.primaryAssets).length < 4)]
  split
  · rename_i heq
    rw [hurls] at heq
    exact absurd heq (by decide)
  · rw [if_neg hn3, hsamp, hcls, hurls]
    simp +decide [runInference, classificationGrid, clampWindow, cfg1, wAll, hout,
      List.lookup]
